import Mathlib

/-!
# VDrift contact sample (`src/collision_contact.h`)

A shallow embedding of the class `COLLISION_CONTACT` and of its one mutating
operation `CastRay`, followed by the properties of the contact-tracking
specification that concern it.  The guards of `TEXTURE::Load`
(`src/texture.cpp`) and the value selection of `GUIOPTION`
(`src/gui/guioption.cpp`) are embedded further down, each under its own
heading.

Modelling conventions
* `btScalar` is taken to be the rationals: the statements below are about the
  arithmetic the code writes down, evaluated exactly.
* A C++ pointer is an `Option`: `none` is the null pointer, `some o` points at
  the object `o`.  The pointed-at classes are incomplete types in the header
  (`class BEZIER;`, `class btCollisionObject;`), so an object is represented by
  its identity only.
* A mutating member function returns its result together with the new object.
-/

/-- Scalar type of the physics code (`btScalar`), in exact arithmetic. -/
abbrev btScalar := ℚ

/-- Three-component vector of the physics library (`btVector3`). -/
structure btVector3 where
  x : btScalar
  y : btScalar
  z : btScalar
deriving DecidableEq, Repr

namespace btVector3

/-- Scalar product, `a.dot(b)`. -/
def dot (a b : btVector3) : btScalar :=
  a.x * b.x + a.y * b.y + a.z * b.z

/-- Component-wise sum, `a + b`. -/
def add (a b : btVector3) : btVector3 :=
  ⟨a.x + b.x, a.y + b.y, a.z + b.z⟩

/-- Component-wise difference, `a - b`. -/
def sub (a b : btVector3) : btVector3 :=
  ⟨a.x - b.x, a.y - b.y, a.z - b.z⟩

/-- Scaling by a scalar on the right, `a * s`. -/
def scale (a : btVector3) (s : btScalar) : btVector3 :=
  ⟨a.x * s, a.y * s, a.z * s⟩

instance : Add btVector3 := ⟨add⟩
instance : Sub btVector3 := ⟨sub⟩
instance : HMul btVector3 btScalar btVector3 := ⟨scale⟩

end btVector3

/-- Track geometry patch (`class BEZIER;`, an incomplete type in the header),
represented by its identity. -/
structure BEZIER where
  handle : Nat
deriving DecidableEq, Repr

/-- Rigid-body engine object (`class btCollisionObject;`, an incomplete type in
the header), represented by its identity. -/
structure btCollisionObject where
  handle : Nat
deriving DecidableEq, Repr

/-- Modelled from the spec: `tracksurface.h` is not among the sources.  A
surface-material descriptor is owned by the surface catalogue and only ever
referred to by the contact sample, so it is represented by its identity. -/
structure TRACKSURFACE where
  handle : Nat
deriving DecidableEq, Repr

/-- Modelled from the spec: `TRACKSURFACE::None()` is declared in
`tracksurface.h`, which is not among the sources.  The spec describes it as the
one well-known default descriptor for "no contact", a reference that is never
null; it is a pointer to that descriptor. -/
def TRACKSURFACE.None : Option TRACKSURFACE :=
  some ⟨0⟩

/-- The contact sample: the private data members of `COLLISION_CONTACT`. -/
structure COLLISION_CONTACT where
  position : btVector3
  normal : btVector3
  depth : btScalar
  patchid : Int
  patch : Option BEZIER
  surface : Option TRACKSURFACE
  col : Option btCollisionObject
deriving DecidableEq, Repr

namespace COLLISION_CONTACT

/-- The default constructor `COLLISION_CONTACT()`.  Its initialiser list names
`depth`, `patchid`, `patch`, `surface` and `col`; `position` and `normal` are
default-constructed `btVector3`s, which the library leaves uninitialised, so the
values they happen to hold are arguments here. -/
def ctorDefault (position normal : btVector3) : COLLISION_CONTACT :=
  { position := position
    normal := normal
    depth := 0
    patchid := -1
    patch := none
    surface := TRACKSURFACE.None
    col := none }

/-- The parameterised constructor `COLLISION_CONTACT(p, n, d, i, b, s, c)` with
its assertion `assert(s != NULL)` active: `none` is the assertion failure,
`some` the constructed sample. -/
def ctor (p n : btVector3) (d : btScalar) (i : Int) (b : Option BEZIER)
    (s : Option TRACKSURFACE) (c : Option btCollisionObject) :
    Option COLLISION_CONTACT :=
  if s ≠ none then
    some
      { position := p
        normal := n
        depth := d
        patchid := i
        patch := b
        surface := s
        col := c }
  else
    none

/-- Accessor `GetPosition() const`. -/
def GetPosition (self : COLLISION_CONTACT) : btVector3 := self.position

/-- Accessor `GetNormal() const`. -/
def GetNormal (self : COLLISION_CONTACT) : btVector3 := self.normal

/-- Accessor `GetDepth() const`. -/
def GetDepth (self : COLLISION_CONTACT) : btScalar := self.depth

/-- Accessor `GetSurface() const`, which returns `*surface`: defined exactly
when the surface pointer is not null. -/
def GetSurface (self : COLLISION_CONTACT) : Option TRACKSURFACE := self.surface

/-- Accessor `GetPatchId() const`. -/
def GetPatchId (self : COLLISION_CONTACT) : Int := self.patchid

/-- Accessor `GetPatch() const`. -/
def GetPatch (self : COLLISION_CONTACT) : Option BEZIER := self.patch

/-- Accessor `GetObject() const`. -/
def GetObject (self : COLLISION_CONTACT) : Option btCollisionObject := self.col

/-- The member function `CastRay(origin, direction, length)`: the plane-based
approximation.  Returns the boolean result and the sample after the call. -/
def CastRay (self : COLLISION_CONTACT) (origin direction : btVector3)
    (length : btScalar) : Bool × COLLISION_CONTACT :=
  let nd := self.normal.dot direction
  if nd < 0 then
    let depth := self.normal.dot (self.position - origin) / nd
    (true, { self with depth := depth, position := origin + direction * depth })
  else
    (false, { self with position := origin + direction * length, depth := length })

end COLLISION_CONTACT

/-- The arguments of one `CastRay` call. -/
structure RayArgs where
  origin : btVector3
  direction : btVector3
  length : btScalar
deriving DecidableEq, Repr

/-- The sample after a finite sequence of `CastRay` calls, made in list order,
the boolean results being ignored. -/
def castRays (c : COLLISION_CONTACT) (calls : List RayArgs) : COLLISION_CONTACT :=
  calls.foldl (fun s r => (s.CastRay r.origin r.direction r.length).2) c

/-! ## The contact tracker (specification §4.2)

The sources contain the contact sample only; the per-wheel tracker that decides
between plane extrapolation and a full query is described by the specification.
-/

/-- Modelled from the spec: the logical state of a `ContactTracker` (§4.2), the
two states `Tracking` and `Reacquiring` and the implicit start state
`Uninitialized`.  The tracker is not among the sources. -/
inductive TrackerState where
  | Uninitialized
  | Tracking
  | Reacquiring
deriving DecidableEq, Repr

/-- Modelled from the spec: a hit returned by `CollisionQueryAdapter.Query`
(§4.3), `(hitPosition, hitNormal, hitDistance, patchId, patchRef,
collisionObjectRef)` together with the surface descriptor the patch locator
resolved for it.  The adapter is not among the sources. -/
structure QueryHit where
  hitPosition : btVector3
  hitNormal : btVector3
  hitDistance : btScalar
  patchId : Int
  patchRef : Option BEZIER
  surface : TRACKSURFACE
  collisionObjectRef : Option btCollisionObject
deriving DecidableEq, Repr

/-- Modelled from the spec: the `ContactTracker` of one wheel (§3, §4.2), which
is not among the sources.  It owns the most recent sample and the run-length,
the count of consecutive ticks that used plane extrapolation since the last
full query. -/
structure ContactTracker where
  state : TrackerState
  sample : COLLISION_CONTACT
  runLength : Nat
deriving DecidableEq, Repr

/-- Modelled from the spec: what one tick hands to `ContactTracker.Update`,
which is not among the sources: the wheel ray, whether the caller requests a
forced refresh, and the answer `CollisionQueryAdapter.Query` gives for that ray
on this tick should the tracker ask (`none` is "no hit"). -/
structure TickInput where
  ray : RayArgs
  forced : Bool
  query : Option QueryHit
deriving DecidableEq, Repr

/-- Modelled from the spec: what an `Update` did on a tick, extrapolate the
stored sample with `CastRay` or issue a full query (§2 data flow).  The tracker
is not among the sources. -/
inductive TickAction where
  | extrapolated
  | fullQuery
deriving DecidableEq, Repr

namespace ContactTracker

/-- Modelled from the spec: the two transitions out of `Reacquiring` (§4.2);
the tracker is not among the sources.  A hit overwrites every field of the
sample from the query result and resets the run-length to zero; no hit sets the
sample to the "no contact" default (default surface, empty patch and collision
references, position at the ray end, depth = length) and leaves the run-length
where it is. -/
def Reacquire (t : ContactTracker) (tick : TickInput) : ContactTracker :=
  match tick.query with
  | some hit =>
    { state := TrackerState.Tracking
      sample :=
        { position := hit.hitPosition
          normal := hit.hitNormal
          depth := hit.hitDistance
          patchid := hit.patchId
          patch := hit.patchRef
          surface := some hit.surface
          col := hit.collisionObjectRef }
      runLength := 0 }
  | none =>
    { state := TrackerState.Reacquiring
      sample :=
        { COLLISION_CONTACT.ctorDefault
            (tick.ray.origin + tick.ray.direction * tick.ray.length) t.sample.normal with
          depth := tick.ray.length }
      runLength := t.runLength }

/-- Modelled from the spec: `ContactTracker.Update` (§4.2), which is not among
the sources, for a configured `cap`.  `Uninitialized` and `Reacquiring` perform
a full query.  `Tracking` stays `Tracking` when the caller does not force a
refresh, the run-length is below the cap and `CastRay` returns true, and then
counts one more extrapolated tick; otherwise it goes to `Reacquiring` and the
full query is made.  The result is the tracker after the tick and what the tick
did. -/
def Update (cap : Nat) (t : ContactTracker) (tick : TickInput) :
    ContactTracker × TickAction :=
  match t.state with
  | TrackerState.Uninitialized => (Reacquire t tick, TickAction.fullQuery)
  | TrackerState.Reacquiring => (Reacquire t tick, TickAction.fullQuery)
  | TrackerState.Tracking =>
    if tick.forced = false ∧ t.runLength < cap then
      let cast := t.sample.CastRay tick.ray.origin tick.ray.direction tick.ray.length
      if cast.1 = true then
        ({ state := TrackerState.Tracking, sample := cast.2, runLength := t.runLength + 1 },
          TickAction.extrapolated)
      else
        (Reacquire { t with sample := cast.2 } tick, TickAction.fullQuery)
    else
      (Reacquire t tick, TickAction.fullQuery)

end ContactTracker

/-- The tracker after a sequence of ticks, with what each tick did, in order. -/
def runUpdates (cap : Nat) (t : ContactTracker) :
    List TickInput → ContactTracker × List TickAction
  | [] => (t, [])
  | tick :: rest =>
    let step := ContactTracker.Update cap t tick
    let tail := runUpdates cap step.1 rest
    (tail.1, step.2 :: tail.2)

/-- A tracker right after a full query that hit the plane `z = 1` from
`(0,0,3)`: state `Tracking`, run-length zero. -/
def trackerOnPlane : ContactTracker :=
  { state := TrackerState.Tracking
    sample := ⟨⟨0, 0, 1⟩, ⟨0, 0, 1⟩, 2, 7, some ⟨1⟩, some ⟨3⟩, some ⟨4⟩⟩
    runLength := 0 }

/-- A tick whose ray points down at the plane `z = 1` from `(0,0,3)`, without a
forced refresh, on which a full query would find nothing. -/
def tickDown : TickInput :=
  { ray := ⟨⟨0, 0, 3⟩, ⟨0, 0, -1⟩, 5⟩, forced := false, query := none }

/-- A tick with the same ray on which a full query would hit patch `8`. -/
def tickDownHit : TickInput :=
  { ray := ⟨⟨0, 0, 3⟩, ⟨0, 0, -1⟩, 5⟩
    forced := false
    query := some ⟨⟨0, 0, 1⟩, ⟨0, 0, 1⟩, 2, 8, some ⟨2⟩, ⟨3⟩, some ⟨4⟩⟩ }

/-! ## Texture loading (`src/texture.cpp`) -/

/-- The fields of `TEXTUREINFO` that `texture.cpp` reads.  `data` is the pointer
to in-memory pixel data (`none` is null), represented by the identity of the
buffer; `maxsize` is the `TEXTUREINFO::Size` enumerator by position. -/
structure TEXTUREINFO where
  data : Option Nat
  width : Nat
  height : Nat
  bytespp : Nat
  maxsize : Nat
  anisotropy : Int
  mipmap : Bool
  cube : Bool
  verticalcross : Bool
  normalmap : Bool
  repeatu : Bool
  repeatv : Bool
  npot : Bool
  nearest : Bool
  srgb : Bool
deriving DecidableEq, Repr

/-- The data members of `TEXTURE` that `texture.cpp` reads and writes: the GL
texture name `id` (zero when nothing is loaded), the stored and original
dimensions, the scale factor, and the `alpha` and `cube` flags. -/
structure TEXTURE where
  id : Nat
  w : Nat
  h : Nat
  origw : Nat
  origh : Nat
  scale : ℚ
  alpha : Bool
  cube : Bool
deriving DecidableEq, Repr

/-- Everything a call of `TEXTURE::Load` can change: the texture object, the
text written to the `error` stream so far, and the state of the libraries it
calls (the GL context with its texture names, the image files read). -/
structure LoadState (World : Type) where
  texture : TEXTURE
  error : String
  world : World

/-- The member function `TEXTURE::Load(path, info, error)`.  The two guards and
the reset of `id` are the code of the function; what follows them calls SDL and
OpenGL, so the cube-map loader `LoadCube` and the remaining two-dimensional
path `loadSurface` are arguments here.  Returns the boolean result and the
state after the call. -/
def TEXTURE.Load {World : Type}
    (LoadCube loadSurface :
      String → TEXTUREINFO → LoadState World → Bool × LoadState World)
    (path : String) (info : TEXTUREINFO) (st : LoadState World) :
    Bool × LoadState World :=
  if st.texture.id ≠ 0 then
    (false,
      { st with error := st.error ++ "Tried to double load texture " ++ path ++ "\n" })
  else if path = "" ∧ info.data = none then
    (false,
      { st with error := st.error ++ "Tried to load a texture with an empty name" ++ "\n" })
  else
    let st0 := { st with texture := { st.texture with id := 0 } }
    if info.cube = true then
      LoadCube path info { st0 with texture := { st0.texture with cube := true } }
    else
      loadSurface path info st0

/-- A loader standing in for the code behind the guards of `TEXTURE::Load` in
the examples: it records a texture-name generation in the library state, sets
`id` to `1` and succeeds. -/
def recordingLoader (_path : String) (_info : TEXTUREINFO) (st : LoadState (List String)) :
    Bool × LoadState (List String) :=
  (true, { st with texture := { st.texture with id := 1 }, world := "glGenTextures" :: st.world })

/-- A texture request for a plain file: no in-memory data, no cube map. -/
def plainInfo : TEXTUREINFO :=
  { data := none, width := 0, height := 0, bytespp := 4, maxsize := 0, anisotropy := 0,
    mipmap := true, cube := false, verticalcross := false, normalmap := false,
    repeatu := true, repeatv := true, npot := true, nearest := false, srgb := false }

/-- A texture that is already loaded under the GL name `5`. -/
def loadedTexture : LoadState (List String) :=
  { texture := ⟨5, 64, 64, 64, 64, 1, false, false⟩, error := "", world := [] }

/-! ## GUI option (`src/gui/guioption.cpp`)

The value list `values` is a `std::list` of (stored value, display value)
pairs.  An iterator into it is `none` for `values.end()` and `some i` for the
node at position `i`.  The two signals are function objects bound elsewhere,
so a call of one of them is recorded as an event, and a member function that
may signal returns the events it emitted, in order.  A member function that
moves or dereferences an iterator returns `none` where the C++ operation is
undefined (stepping past the ends, dereferencing `end()`).
-/

/-- A call of `signal_val` or of `signal_str`, with the string it passes. -/
inductive GUISIGNAL where
  | signal_val (value : String)
  | signal_str (value : String)
deriving DecidableEq, Repr

/-- The data members of `GUIOPTION` that `guioption.cpp` reads and writes. -/
structure GUIOPTION where
  current_valid : Bool
  values : List (String × String)
  current_value : Option Nat
  non_value_data : String
  description : String
  text : String
  type : String
  min : ℚ
  max : ℚ
  percentage : Bool
deriving DecidableEq, Repr

namespace GUIOPTION

/-- The static member `GUIOPTION::null`, a default-constructed string. -/
def null : String := ""

/-- The iterator `values.begin()`: the first node, or `end()` for an empty list. -/
def valuesBegin (values : List (String × String)) : Option Nat :=
  if values.isEmpty then none else some 0

/-- Dereferencing an iterator, `*i`. -/
def deref (values : List (String × String)) : Option Nat → Option (String × String)
  | none => none
  | some i => values.get? i

/-- Stepping an iterator forward, `i++`. -/
def iterNext (values : List (String × String)) : Option Nat → Option (Option Nat)
  | none => none
  | some i =>
    if i + 1 < values.length then some (some (i + 1))
    else if i + 1 = values.length then some none
    else none

/-- Stepping an iterator backward, `i--`. -/
def iterPrev (values : List (String × String)) : Option Nat → Option (Option Nat)
  | none => if values.isEmpty then none else some (some (values.length - 1))
  | some 0 => none
  | some (i + 1) => if i + 1 < values.length then some (some i) else none

/-- The search loops of `SetCurrentValue`: the position of the first entry that
satisfies the test, scanning from `values.begin()` and stopping at the first
match (`break`). -/
def findFirst (test : String × String → Bool) : List (String × String) → Option Nat
  | [] => none
  | entry :: rest =>
    if test entry = true then some 0 else (findFirst test rest).map (fun i => i + 1)

/-- The member function `SignalValue()`. -/
def SignalValue (self : GUIOPTION) : Option (GUIOPTION × List GUISIGNAL) :=
  let self1 := { self with current_valid := !self.values.isEmpty }
  if self1.current_valid = true then
    match deref self1.values self1.current_value with
    | some entry =>
      some (self1, [GUISIGNAL.signal_val entry.1, GUISIGNAL.signal_str entry.2])
    | none => none
  else
    some (self1, [])

/-- The member function `SetCurrentValue(storedvaluename)`.  For the type
`"float"` both strings are read into a `float` through a string stream and
compared with `==`; that comparison belongs to the stream library and is the
argument `sameFloat`. -/
def SetCurrentValue (sameFloat : String → String → Bool) (self : GUIOPTION)
    (storedvaluename : String) : Option (GUIOPTION × List GUISIGNAL) :=
  if self.values.isEmpty then
    some ({ self with non_value_data := storedvaluename, current_valid := false },
      [GUISIGNAL.signal_val storedvaluename, GUISIGNAL.signal_str storedvaluename])
  else
    let found :=
      if self.type = "float" then
        findFirst (fun entry => sameFloat entry.1 storedvaluename) self.values
      else
        findFirst (fun entry => decide (entry.1 = storedvaluename)) self.values
    let searched : GUIOPTION :=
      match found with
      | some i => { self with current_valid := true, current_value := some i }
      | none => { self with current_valid := false }
    let settled : GUIOPTION :=
      if searched.current_valid = false then
        { searched with current_value := valuesBegin searched.values, current_valid := true }
      else
        searched
    SignalValue settled

/-- The member function `Increment()`. -/
def Increment (self : GUIOPTION) : Option (GUIOPTION × List GUISIGNAL) :=
  if self.values.isEmpty then
    some ({ self with current_value := none }, [])
  else
    let moved : Option (Option Nat) :=
      if self.current_value = none then
        some (valuesBegin self.values)
      else
        match iterNext self.values self.current_value with
        | some i => if i = none then some (valuesBegin self.values) else some i
        | none => none
    match moved with
    | some i => SignalValue { self with current_value := i }
    | none => none

/-- The member function `Decrement()`. -/
def Decrement (self : GUIOPTION) : Option (GUIOPTION × List GUISIGNAL) :=
  if self.values.isEmpty then
    some ({ self with current_value := none }, [])
  else
    let start : Option Nat :=
      if self.current_value = valuesBegin self.values then none else self.current_value
    match iterPrev self.values start with
    | some i => SignalValue { self with current_value := i }
    | none => none

/-- The member function `GetCurrentDisplayValue() const`. -/
def GetCurrentDisplayValue (self : GUIOPTION) : Option String :=
  if self.values.isEmpty then
    some self.non_value_data
  else if self.current_value = none ∨ self.current_valid = false then
    some null
  else
    (deref self.values self.current_value).map (fun entry => entry.2)

/-- The member function `GetCurrentStorageValue() const`. -/
def GetCurrentStorageValue (self : GUIOPTION) : Option String :=
  if self.values.isEmpty then
    some self.non_value_data
  else if self.current_value = none ∨ self.current_valid = false then
    some null
  else
    (deref self.values self.current_value).map (fun entry => entry.1)

end GUIOPTION

/-- An option with the three entries `low`, `medium`, `high`, as the default
constructor and three `Insert` calls leave it: the current position is still
`end()` and not valid. -/
def qualityOption : GUIOPTION :=
  { current_valid := false
    values := [("low", "Low"), ("medium", "Medium"), ("high", "High")]
    current_value := none
    non_value_data := ""
    description := ""
    text := ""
    type := "string"
    min := 0
    max := 1
    percentage := true }

/-- The option `qualityOption` with the stored value `medium` entered twice,
under two display strings. -/
def duplicateOption : GUIOPTION :=
  { qualityOption with
    values := [("low", "Low"), ("medium", "Medium"), ("medium", "Middle")] }

/-! ## Unfolding lemmas for the vector operations -/

theorem btVector3.add_eq (a b : btVector3) :
    a + b = ⟨a.x + b.x, a.y + b.y, a.z + b.z⟩ := rfl

theorem btVector3.sub_eq (a b : btVector3) :
    a - b = ⟨a.x - b.x, a.y - b.y, a.z - b.z⟩ := rfl

theorem btVector3.scale_eq (a : btVector3) (s : btScalar) :
    a * s = ⟨a.x * s, a.y * s, a.z * s⟩ := rfl

/-! ## The two branches of `CastRay` -/

theorem COLLISION_CONTACT.CastRay_of_neg (c : COLLISION_CONTACT)
    (origin direction : btVector3) (length : btScalar)
    (hnd : c.normal.dot direction < 0) :
    c.CastRay origin direction length =
      (true,
        { c with
          depth := c.normal.dot (c.position - origin) / c.normal.dot direction
          position := origin + direction *
            (c.normal.dot (c.position - origin) / c.normal.dot direction) }) := by
  simp [COLLISION_CONTACT.CastRay, hnd]

theorem COLLISION_CONTACT.CastRay_of_nonneg (c : COLLISION_CONTACT)
    (origin direction : btVector3) (length : btScalar)
    (hnd : 0 ≤ c.normal.dot direction) :
    c.CastRay origin direction length =
      (false, { c with position := origin + direction * length, depth := length }) := by
  simp [COLLISION_CONTACT.CastRay, not_lt.mpr hnd]

/-! ## What `CastRay` leaves alone -/

theorem COLLISION_CONTACT.CastRay_untouched (c : COLLISION_CONTACT)
    (origin direction : btVector3) (length : btScalar) :
    (c.CastRay origin direction length).2.normal = c.normal ∧
    (c.CastRay origin direction length).2.patchid = c.patchid ∧
    (c.CastRay origin direction length).2.patch = c.patch ∧
    (c.CastRay origin direction length).2.surface = c.surface ∧
    (c.CastRay origin direction length).2.col = c.col := by
  unfold COLLISION_CONTACT.CastRay
  by_cases hnd : c.normal.dot direction < 0 <;> simp [hnd]

theorem castRays_nil (c : COLLISION_CONTACT) : castRays c [] = c := rfl

theorem castRays_cons (c : COLLISION_CONTACT) (r : RayArgs) (rest : List RayArgs) :
    castRays c (r :: rest) =
      castRays (c.CastRay r.origin r.direction r.length).2 rest := rfl

theorem castRays_untouched (calls : List RayArgs) (c : COLLISION_CONTACT) :
    (castRays c calls).normal = c.normal ∧
    (castRays c calls).patchid = c.patchid ∧
    (castRays c calls).patch = c.patch ∧
    (castRays c calls).surface = c.surface ∧
    (castRays c calls).col = c.col := by
  induction calls generalizing c with
  | nil => simp [castRays_nil]
  | cons r rest ih =>
    have hstep := c.CastRay_untouched r.origin r.direction r.length
    have hrest := ih (c.CastRay r.origin r.direction r.length).2
    rw [castRays_cons]
    exact ⟨hrest.1.trans hstep.1, hrest.2.1.trans hstep.2.1,
      hrest.2.2.1.trans hstep.2.2.1, hrest.2.2.2.1.trans hstep.2.2.2.1,
      hrest.2.2.2.2.trans hstep.2.2.2.2⟩

/-! ## Repeating the no-contact path -/

theorem COLLISION_CONTACT.CastRay_nonneg_again (c : COLLISION_CONTACT)
    (origin direction : btVector3) (length : btScalar)
    (hnd : 0 ≤ c.normal.dot direction) :
    (c.CastRay origin direction length).2.CastRay origin direction length =
      c.CastRay origin direction length := by
  have hnd2 : 0 ≤ (c.CastRay origin direction length).2.normal.dot direction := by
    rw [(c.CastRay_untouched origin direction length).1]
    exact hnd
  rw [COLLISION_CONTACT.CastRay_of_nonneg _ origin direction length hnd2,
    c.CastRay_of_nonneg origin direction length hnd]

theorem castRays_replicate_fixed (c : COLLISION_CONTACT) (r : RayArgs)
    (hfix : (c.CastRay r.origin r.direction r.length).2 = c) (k : Nat) :
    castRays c (List.replicate k r) = c := by
  induction k with
  | zero => rfl
  | succ k ih => rw [List.replicate_succ, castRays_cons, hfix, ih]

/-! ## The contact tracker: extrapolated ticks and the cap -/

theorem ContactTracker.Update_extrapolated_iff (cap : Nat) (t : ContactTracker)
    (tick : TickInput) :
    (ContactTracker.Update cap t tick).2 = TickAction.extrapolated ↔
      t.state = TrackerState.Tracking ∧ tick.forced = false ∧ t.runLength < cap ∧
      (t.sample.CastRay tick.ray.origin tick.ray.direction tick.ray.length).1 = true := by
  unfold ContactTracker.Update
  cases hst : t.state <;> simp
  by_cases hgo : tick.forced = false ∧ t.runLength < cap
  · by_cases hcast :
        (t.sample.CastRay tick.ray.origin tick.ray.direction tick.ray.length).1 = true
    · simp [hgo, hcast]
    · simp [hgo, hcast]
  · simp only [hgo, if_false]
    constructor
    · intro h
      cases h
    · intro h
      exact absurd ⟨h.1, h.2.1⟩ hgo

theorem ContactTracker.Update_runLength_of_extrapolated (cap : Nat) (t : ContactTracker)
    (tick : TickInput)
    (h : (ContactTracker.Update cap t tick).2 = TickAction.extrapolated) :
    (ContactTracker.Update cap t tick).1.runLength = t.runLength + 1 := by
  have hiff := (ContactTracker.Update_extrapolated_iff cap t tick).mp h
  unfold ContactTracker.Update
  simp [hiff.1, hiff.2.1, hiff.2.2.1, hiff.2.2.2]

theorem ContactTracker.Update_of_cap_le (cap : Nat) (t : ContactTracker)
    (tick : TickInput) (hcap : cap ≤ t.runLength) :
    ContactTracker.Update cap t tick =
      (ContactTracker.Reacquire t tick, TickAction.fullQuery) := by
  unfold ContactTracker.Update
  cases hst : t.state <;> simp
  intro _ hlt
  exact absurd hlt (not_lt.mpr hcap)

theorem ContactTracker.Reacquire_of_hit (t : ContactTracker) (tick : TickInput)
    (hit : QueryHit) (hq : tick.query = some hit) :
    (ContactTracker.Reacquire t tick).runLength = 0 ∧
    (ContactTracker.Reacquire t tick).state = TrackerState.Tracking := by
  simp [ContactTracker.Reacquire, hq]

theorem runUpdates_cons (cap : Nat) (t : ContactTracker) (tick : TickInput)
    (rest : List TickInput) :
    runUpdates cap t (tick :: rest) =
      ((runUpdates cap (ContactTracker.Update cap t tick).1 rest).1,
        (ContactTracker.Update cap t tick).2 ::
          (runUpdates cap (ContactTracker.Update cap t tick).1 rest).2) := rfl

theorem runUpdates_runLength_of_extrapolated (cap : Nat) (ticks : List TickInput)
    (t : ContactTracker)
    (h : (runUpdates cap t ticks).2 =
      List.replicate ticks.length TickAction.extrapolated) :
    (runUpdates cap t ticks).1.runLength = t.runLength + ticks.length := by
  induction ticks generalizing t with
  | nil => rfl
  | cons tick rest ih =>
    rw [runUpdates_cons] at h ⊢
    simp only [List.length_cons, List.replicate_succ, List.cons.injEq] at h
    have hstep := ContactTracker.Update_runLength_of_extrapolated cap t tick h.1
    have hrest := ih (ContactTracker.Update cap t tick).1 h.2
    simp only [List.length_cons]
    rw [hrest, hstep]
    omega

/-! ## GUI option: searching the value list and signalling -/

theorem GUIOPTION.findFirst_none (test : String × String → Bool)
    (values : List (String × String))
    (h : ∀ entry ∈ values, test entry = false) :
    GUIOPTION.findFirst test values = none := by
  induction values with
  | nil => rfl
  | cons entry rest ih =>
    have hentry : test entry = false := h entry (List.mem_cons_self entry rest)
    have hrest := ih (fun e he => h e (List.mem_cons_of_mem entry he))
    simp [GUIOPTION.findFirst, hentry, hrest]

theorem GUIOPTION.findFirst_some (test : String × String → Bool)
    (values : List (String × String))
    (h : ∃ entry ∈ values, test entry = true) :
    ∃ i entry, GUIOPTION.findFirst test values = some i ∧
      values.get? i = some entry ∧ test entry = true ∧
      ∀ j, j < i → ∀ e, values.get? j = some e → test e = false := by
  induction values with
  | nil =>
    obtain ⟨entry, hmem, _⟩ := h
    cases hmem
  | cons head rest ih =>
    by_cases hhead : test head = true
    · refine ⟨0, head, by simp [GUIOPTION.findFirst, hhead], rfl, hhead, ?_⟩
      intro j hj
      exact absurd hj (Nat.not_lt_zero j)
    · obtain ⟨entry, hmem, htest⟩ := h
      have hin : entry ∈ rest := by
        rcases List.mem_cons.mp hmem with heq | hrest
        · rw [heq] at htest
          exact absurd htest hhead
        · exact hrest
      obtain ⟨i, found, hfind, hget, hfound, hbefore⟩ := ih ⟨entry, hin, htest⟩
      refine ⟨i + 1, found, by simp [GUIOPTION.findFirst, hhead, hfind], by simpa using hget,
        hfound, ?_⟩
      intro j hj e he
      cases j with
      | zero =>
        simp at he
        rw [← he]
        simpa using hhead
      | succ k =>
        exact hbefore k (Nat.lt_of_succ_lt_succ hj) e (by simpa using he)

theorem GUIOPTION.SignalValue_of_entry (g : GUIOPTION) (entry : String × String)
    (hderef : GUIOPTION.deref g.values g.current_value = some entry) :
    GUIOPTION.SignalValue g =
      some ({ g with current_valid := true },
        [GUISIGNAL.signal_val entry.1, GUISIGNAL.signal_str entry.2]) := by
  have hne : g.values.isEmpty = false := by
    cases hv : g.values with
    | nil =>
      rw [hv] at hderef
      cases hc : g.current_value <;> rw [hc] at hderef <;> simp [GUIOPTION.deref] at hderef
    | cons a l => rfl
  simp [GUIOPTION.SignalValue, hne, hderef]

theorem GUIOPTION.GetCurrentStorageValue_of_entry (g : GUIOPTION) (entry : String × String)
    (hvalid : g.current_valid = true)
    (hderef : GUIOPTION.deref g.values g.current_value = some entry) :
    g.GetCurrentStorageValue = some entry.1 := by
  have hne : g.values.isEmpty = false := by
    cases hv : g.values with
    | nil =>
      rw [hv] at hderef
      cases hc : g.current_value <;> rw [hc] at hderef <;> simp [GUIOPTION.deref] at hderef
    | cons a l => rfl
  have hcur : g.current_value ≠ none := by
    intro hc
    rw [hc] at hderef
    simp [GUIOPTION.deref] at hderef
  simp [GUIOPTION.GetCurrentStorageValue, hne, hvalid, hcur, hderef]

theorem GUIOPTION.GetCurrentDisplayValue_of_entry (g : GUIOPTION) (entry : String × String)
    (hvalid : g.current_valid = true)
    (hderef : GUIOPTION.deref g.values g.current_value = some entry) :
    g.GetCurrentDisplayValue = some entry.2 := by
  have hne : g.values.isEmpty = false := by
    cases hv : g.values with
    | nil =>
      rw [hv] at hderef
      cases hc : g.current_value <;> rw [hc] at hderef <;> simp [GUIOPTION.deref] at hderef
    | cons a l => rfl
  have hcur : g.current_value ≠ none := by
    intro hc
    rw [hc] at hderef
    simp [GUIOPTION.deref] at hderef
  simp [GUIOPTION.GetCurrentDisplayValue, hne, hvalid, hcur, hderef]

/-! ## The plane extrapolation, algebraically -/

theorem btVector3.dot_ray_sub_origin (n origin direction : btVector3) (t : btScalar) :
    n.dot ((origin + direction * t) - origin) = n.dot direction * t := by
  simp only [btVector3.dot, btVector3.add_eq, btVector3.sub_eq, btVector3.scale_eq]
  ring

theorem btVector3.dot_ray_sub_point (n p origin direction : btVector3) (t : btScalar) :
    n.dot ((origin + direction * t) - p) = n.dot direction * t - n.dot (p - origin) := by
  simp only [btVector3.dot, btVector3.add_eq, btVector3.sub_eq, btVector3.scale_eq]
  ring

/-! ## GUI option: stepping through the value list -/

theorem GUIOPTION.exists_entry (values : List (String × String)) (k : Nat)
    (hk : k < values.length) : ∃ entry, values.get? k = some entry :=
  ⟨values.get ⟨k, hk⟩, List.get?_eq_get hk⟩

theorem GUIOPTION.isEmpty_false_of_lt (values : List (String × String)) (k : Nat)
    (hk : k < values.length) : values.isEmpty = false := by
  cases values with
  | nil => exact absurd hk (Nat.not_lt_zero k)
  | cons a l => rfl

theorem GUIOPTION.Increment_at (g : GUIOPTION) (i : Nat)
    (hcur : g.current_value = some i) (hi : i < g.values.length) :
    ∃ entry,
      g.values.get? (if i + 1 = g.values.length then 0 else i + 1) = some entry ∧
      g.Increment =
        some ({ g with
            current_value := some (if i + 1 = g.values.length then 0 else i + 1)
            current_valid := true },
          [GUISIGNAL.signal_val entry.1, GUISIGNAL.signal_str entry.2]) := by
  have hne := GUIOPTION.isEmpty_false_of_lt g.values i hi
  have hk : (if i + 1 = g.values.length then 0 else i + 1) < g.values.length := by
    split <;> omega
  obtain ⟨entry, hentry⟩ := GUIOPTION.exists_entry g.values _ hk
  refine ⟨entry, hentry, ?_⟩
  have hmoved : g.Increment = GUIOPTION.SignalValue
      { g with current_value := some (if i + 1 = g.values.length then 0 else i + 1) } := by
    by_cases hlast : i + 1 = g.values.length
    · simp [GUIOPTION.Increment, hne, hcur, GUIOPTION.iterNext, hlast,
        GUIOPTION.valuesBegin]
    · have hlt : i + 1 < g.values.length := by omega
      simp [GUIOPTION.Increment, hne, hcur, GUIOPTION.iterNext, hlast, hlt]
  rw [hmoved, GUIOPTION.SignalValue_of_entry _ entry (by simpa [GUIOPTION.deref] using hentry)]

theorem GUIOPTION.Decrement_at (g : GUIOPTION) (i : Nat)
    (hcur : g.current_value = some i) (hi : i < g.values.length) :
    ∃ entry,
      g.values.get? (if i = 0 then g.values.length - 1 else i - 1) = some entry ∧
      g.Decrement =
        some ({ g with
            current_value := some (if i = 0 then g.values.length - 1 else i - 1)
            current_valid := true },
          [GUISIGNAL.signal_val entry.1, GUISIGNAL.signal_str entry.2]) := by
  have hne := GUIOPTION.isEmpty_false_of_lt g.values i hi
  have hk : (if i = 0 then g.values.length - 1 else i - 1) < g.values.length := by
    split <;> omega
  obtain ⟨entry, hentry⟩ := GUIOPTION.exists_entry g.values _ hk
  refine ⟨entry, hentry, ?_⟩
  have hmoved : g.Decrement = GUIOPTION.SignalValue
      { g with current_value := some (if i = 0 then g.values.length - 1 else i - 1) } := by
    cases i with
    | zero =>
      simp [GUIOPTION.Decrement, hne, hcur, GUIOPTION.iterPrev, GUIOPTION.valuesBegin]
    | succ k =>
      simp [GUIOPTION.Decrement, hne, hcur, GUIOPTION.iterPrev, GUIOPTION.valuesBegin, hi]
  rw [hmoved, GUIOPTION.SignalValue_of_entry _ entry (by simpa [GUIOPTION.deref] using hentry)]

/-! ## Claims -/

/-- C1: when `nd = normal · direction < 0`, `CastRay` returns true, the new
depth is `normal · (position − origin) / nd` (with the position and normal
stored before the call) and the new position is `origin + direction × depth`
for that new depth. -/
theorem CastRay_plane_intersection (c : COLLISION_CONTACT)
    (origin direction : btVector3) (length : btScalar)
    (hnd : c.normal.dot direction < 0) :
    (c.CastRay origin direction length).1 = true ∧
    (c.CastRay origin direction length).2.depth =
      c.normal.dot (c.position - origin) / c.normal.dot direction ∧
    (c.CastRay origin direction length).2.position =
      origin + direction * (c.CastRay origin direction length).2.depth := by
  rw [c.CastRay_of_neg origin direction length hnd]
  exact ⟨rfl, rfl, rfl⟩

/-- The example of the specification for C1: with normal `(0,0,1)`, position
`(0,0,1)`, origin `(0,0,3)` and direction `(0,0,-1)` the call returns true with
depth `2` and position `(0,0,1)`. -/
theorem CastRay_plane_intersection_witness :
    btVector3.dot ⟨0, 0, 1⟩ ⟨0, 0, -1⟩ < 0 ∧
    (COLLISION_CONTACT.CastRay ⟨⟨0, 0, 1⟩, ⟨0, 0, 1⟩, 0, 7, none, some ⟨3⟩, none⟩
      ⟨0, 0, 3⟩ ⟨0, 0, -1⟩ 5).1 = true ∧
    (COLLISION_CONTACT.CastRay ⟨⟨0, 0, 1⟩, ⟨0, 0, 1⟩, 0, 7, none, some ⟨3⟩, none⟩
      ⟨0, 0, 3⟩ ⟨0, 0, -1⟩ 5).2.depth = 2 ∧
    (COLLISION_CONTACT.CastRay ⟨⟨0, 0, 1⟩, ⟨0, 0, 1⟩, 0, 7, none, some ⟨3⟩, none⟩
      ⟨0, 0, 3⟩ ⟨0, 0, -1⟩ 5).2.position = ⟨0, 0, 1⟩ := by
  have hnd : btVector3.dot ⟨0, 0, 1⟩ ⟨0, 0, -1⟩ < 0 := by norm_num [btVector3.dot]
  have h := CastRay_plane_intersection
    ⟨⟨0, 0, 1⟩, ⟨0, 0, 1⟩, 0, 7, none, some ⟨3⟩, none⟩ ⟨0, 0, 3⟩ ⟨0, 0, -1⟩ 5 hnd
  have hdepth : (COLLISION_CONTACT.CastRay
      ⟨⟨0, 0, 1⟩, ⟨0, 0, 1⟩, 0, 7, none, some ⟨3⟩, none⟩
      ⟨0, 0, 3⟩ ⟨0, 0, -1⟩ 5).2.depth = 2 := by
    rw [h.2.1]
    norm_num [btVector3.dot, btVector3.sub_eq]
  refine ⟨hnd, h.1, hdepth, ?_⟩
  rw [h.2.2, hdepth]
  norm_num [btVector3.add_eq, btVector3.scale_eq]

/-- C2: when `nd = normal · direction ≥ 0` (a parallel ray, `nd = 0`, included),
`CastRay` returns false, sets the depth to exactly `length` and the position to
`origin + direction × length`. -/
theorem CastRay_no_contact (c : COLLISION_CONTACT)
    (origin direction : btVector3) (length : btScalar)
    (hnd : 0 ≤ c.normal.dot direction) :
    (c.CastRay origin direction length).1 = false ∧
    (c.CastRay origin direction length).2.depth = length ∧
    (c.CastRay origin direction length).2.position = origin + direction * length := by
  rw [c.CastRay_of_nonneg origin direction length hnd]
  exact ⟨rfl, rfl, rfl⟩

/-- The example of the specification for C2: the setup of C1 with direction
`(0,0,1)` and length `5` returns false with depth `5` and the position at the
ray end `(0,0,8)`. -/
theorem CastRay_no_contact_witness :
    0 ≤ btVector3.dot ⟨0, 0, 1⟩ ⟨0, 0, 1⟩ ∧
    (COLLISION_CONTACT.CastRay ⟨⟨0, 0, 1⟩, ⟨0, 0, 1⟩, 0, 7, none, some ⟨3⟩, none⟩
      ⟨0, 0, 3⟩ ⟨0, 0, 1⟩ 5).1 = false ∧
    (COLLISION_CONTACT.CastRay ⟨⟨0, 0, 1⟩, ⟨0, 0, 1⟩, 0, 7, none, some ⟨3⟩, none⟩
      ⟨0, 0, 3⟩ ⟨0, 0, 1⟩ 5).2.depth = 5 ∧
    (COLLISION_CONTACT.CastRay ⟨⟨0, 0, 1⟩, ⟨0, 0, 1⟩, 0, 7, none, some ⟨3⟩, none⟩
      ⟨0, 0, 3⟩ ⟨0, 0, 1⟩ 5).2.position = ⟨0, 0, 8⟩ := by
  have hnd : 0 ≤ btVector3.dot ⟨0, 0, 1⟩ ⟨0, 0, 1⟩ := by norm_num [btVector3.dot]
  have h := CastRay_no_contact
    ⟨⟨0, 0, 1⟩, ⟨0, 0, 1⟩, 0, 7, none, some ⟨3⟩, none⟩ ⟨0, 0, 3⟩ ⟨0, 0, 1⟩ 5 hnd
  refine ⟨hnd, h.1, h.2.1, ?_⟩
  rw [h.2.2]
  norm_num [btVector3.add_eq, btVector3.scale_eq]

/-- C3: `CastRay` changes only `position` and `depth`.  After one call with any
arguments, and after any finite sequence of calls, `normal`, `patchid`,
`patch`, `surface` and `col` hold the values they held before, whichever
branch each call takes. -/
theorem CastRay_changes_only_position_and_depth (c : COLLISION_CONTACT) :
    (∀ (origin direction : btVector3) (length : btScalar),
      (c.CastRay origin direction length).2 =
        { c with
          position := (c.CastRay origin direction length).2.position
          depth := (c.CastRay origin direction length).2.depth }) ∧
    (∀ calls : List RayArgs,
      (castRays c calls).GetNormal = c.GetNormal ∧
      (castRays c calls).GetPatchId = c.GetPatchId ∧
      (castRays c calls).GetPatch = c.GetPatch ∧
      (castRays c calls).GetSurface = c.GetSurface ∧
      (castRays c calls).GetObject = c.GetObject) := by
  refine ⟨fun origin direction length => ?_, fun calls => castRays_untouched calls c⟩
  unfold COLLISION_CONTACT.CastRay
  by_cases hnd : c.normal.dot direction < 0 <;> simp [hnd]

/-- C4: the surface of a contact sample is never absent.  A default-constructed
sample, and a sample built by the parameterised constructor from a non-null
surface (the construction succeeds), has a non-null surface pointer after any
finite sequence of `CastRay` calls, the empty sequence included, so
`GetSurface` is defined. -/
theorem surface_never_absent :
    (∀ (p0 n0 : btVector3) (calls : List RayArgs),
      (castRays (COLLISION_CONTACT.ctorDefault p0 n0) calls).GetSurface.isSome = true) ∧
    (∀ (p n : btVector3) (d : btScalar) (i : Int) (b : Option BEZIER)
        (sv : TRACKSURFACE) (c : Option btCollisionObject) (calls : List RayArgs),
      ∃ smp, COLLISION_CONTACT.ctor p n d i b (some sv) c = some smp ∧
        (castRays smp calls).GetSurface.isSome = true) := by
  constructor
  · intro p0 n0 calls
    have h := (castRays_untouched calls (COLLISION_CONTACT.ctorDefault p0 n0)).2.2.2.1
    rw [COLLISION_CONTACT.GetSurface, h]
    rfl
  · intro p n d i b sv c calls
    refine ⟨⟨p, n, d, i, b, some sv, c⟩, by simp [COLLISION_CONTACT.ctor], ?_⟩
    have h := (castRays_untouched calls ⟨p, n, d, i, b, some sv, c⟩).2.2.2.1
    rw [COLLISION_CONTACT.GetSurface, h]
    rfl

/-- Counterexample to C5 as stated: the sample that hit the plane `z = 1` from
above with depth `2`, asked again with the origin `(0,0,0)` below that plane,
the unit direction `(0,0,-1)` and length `1`, takes the `nd < 0` branch and ends
with depth `-1`. -/
theorem depth_nonneg_counterexample :
    (0 : btScalar) ≤
      COLLISION_CONTACT.depth ⟨⟨0, 0, 1⟩, ⟨0, 0, 1⟩, 2, 7, none, some ⟨3⟩, none⟩ ∧
    btVector3.dot ⟨0, 0, -1⟩ ⟨0, 0, -1⟩ = 1 ∧
    (0 : btScalar) < 1 ∧
    (COLLISION_CONTACT.CastRay ⟨⟨0, 0, 1⟩, ⟨0, 0, 1⟩, 2, 7, none, some ⟨3⟩, none⟩
      ⟨0, 0, 0⟩ ⟨0, 0, -1⟩ 1).1 = true ∧
    (COLLISION_CONTACT.CastRay ⟨⟨0, 0, 1⟩, ⟨0, 0, 1⟩, 2, 7, none, some ⟨3⟩, none⟩
      ⟨0, 0, 0⟩ ⟨0, 0, -1⟩ 1).2.depth = -1 ∧
    ¬ (0 : btScalar) ≤
      (COLLISION_CONTACT.CastRay ⟨⟨0, 0, 1⟩, ⟨0, 0, 1⟩, 2, 7, none, some ⟨3⟩, none⟩
        ⟨0, 0, 0⟩ ⟨0, 0, -1⟩ 1).2.depth := by
  have hnd : btVector3.dot ⟨0, 0, 1⟩ ⟨0, 0, -1⟩ < 0 := by norm_num [btVector3.dot]
  have hrun := COLLISION_CONTACT.CastRay_of_neg
    ⟨⟨0, 0, 1⟩, ⟨0, 0, 1⟩, 2, 7, none, some ⟨3⟩, none⟩ ⟨0, 0, 0⟩ ⟨0, 0, -1⟩ 1 hnd
  have hdepth : (COLLISION_CONTACT.CastRay
      ⟨⟨0, 0, 1⟩, ⟨0, 0, 1⟩, 2, 7, none, some ⟨3⟩, none⟩
      ⟨0, 0, 0⟩ ⟨0, 0, -1⟩ 1).2.depth = -1 := by
    rw [hrun]
    norm_num [btVector3.dot, btVector3.sub_eq]
  refine ⟨by norm_num, by norm_num [btVector3.dot], by norm_num, ?_, hdepth, ?_⟩
  · rw [hrun]
  · rw [hdepth]
    norm_num

/-- C5, amended: for a sample with `depth ≥ 0` and a `CastRay` call with unit
direction and positive length, the depth after the call is `≥ 0` exactly when
the call takes the `nd ≥ 0` branch or the origin is not on the far side of the
stored plane, `normal · (position − origin) ≤ 0`. -/
theorem CastRay_depth_nonneg_iff (c : COLLISION_CONTACT)
    (origin direction : btVector3) (length : btScalar)
    (_hdepth : 0 ≤ c.depth) (_hunit : direction.dot direction = 1)
    (hlen : 0 < length) :
    0 ≤ (c.CastRay origin direction length).2.depth ↔
      (0 ≤ c.normal.dot direction ∨ c.normal.dot (c.position - origin) ≤ 0) := by
  by_cases hnd : c.normal.dot direction < 0
  · rw [c.CastRay_of_neg origin direction length hnd]
    show 0 ≤ c.normal.dot (c.position - origin) / c.normal.dot direction ↔ _
    constructor
    · intro h
      right
      by_contra hpos
      have := div_neg_of_pos_of_neg (not_le.mp hpos) hnd
      exact absurd h (not_le.mpr this)
    · rintro (h | h)
      · exact absurd hnd (not_lt.mpr h)
      · exact div_nonneg_of_nonpos h hnd.le
  · rw [c.CastRay_of_nonneg origin direction length (not_lt.mp hnd)]
    show 0 ≤ length ↔ _
    exact ⟨fun _ => Or.inl (not_lt.mp hnd), fun _ => hlen.le⟩

/-- An instance of amended C5: the sample on the plane `z = 1`, asked from the
origin `(0,0,3)` in front of the plane with direction `(0,0,-1)`. -/
theorem CastRay_depth_nonneg_iff_witness :
    (0 : btScalar) ≤
      COLLISION_CONTACT.depth ⟨⟨0, 0, 1⟩, ⟨0, 0, 1⟩, 2, 7, none, some ⟨3⟩, none⟩ ∧
    btVector3.dot ⟨0, 0, -1⟩ ⟨0, 0, -1⟩ = 1 ∧
    (0 : btScalar) < 5 ∧
    (0 ≤ (COLLISION_CONTACT.CastRay ⟨⟨0, 0, 1⟩, ⟨0, 0, 1⟩, 2, 7, none, some ⟨3⟩, none⟩
        ⟨0, 0, 3⟩ ⟨0, 0, -1⟩ 5).2.depth ↔
      (0 ≤ btVector3.dot ⟨0, 0, 1⟩ ⟨0, 0, -1⟩ ∨
        btVector3.dot ⟨0, 0, 1⟩ ((⟨0, 0, 1⟩ : btVector3) - ⟨0, 0, 3⟩) ≤ 0)) :=
  ⟨by norm_num, by norm_num [btVector3.dot], by norm_num,
    CastRay_depth_nonneg_iff ⟨⟨0, 0, 1⟩, ⟨0, 0, 1⟩, 2, 7, none, some ⟨3⟩, none⟩
      ⟨0, 0, 3⟩ ⟨0, 0, -1⟩ 5 (by norm_num) (by norm_num [btVector3.dot]) (by norm_num)⟩

/-- C6: idempotence of the no-contact path.  When `normal · direction ≥ 0`,
calling `CastRay` any number of times `k + 1` with the same origin, direction
and length leaves the sample exactly as the first call left it, each further
call again returns false, the position is the ray end
`origin + direction × length`, the depth is `length`, and the surface,
`patchid`, `patch` and `col` are those of the sample before the first call. -/
theorem CastRay_miss_idempotent (c : COLLISION_CONTACT)
    (origin direction : btVector3) (length : btScalar)
    (hnd : 0 ≤ c.normal.dot direction) (k : Nat) :
    castRays c (List.replicate (k + 1) ⟨origin, direction, length⟩) =
      (c.CastRay origin direction length).2 ∧
    ((castRays c (List.replicate k ⟨origin, direction, length⟩)).CastRay
      origin direction length).1 = false ∧
    (c.CastRay origin direction length).2.GetPosition = origin + direction * length ∧
    (c.CastRay origin direction length).2.GetDepth = length ∧
    (c.CastRay origin direction length).2.GetSurface = c.GetSurface ∧
    (c.CastRay origin direction length).2.GetPatchId = c.GetPatchId ∧
    (c.CastRay origin direction length).2.GetPatch = c.GetPatch ∧
    (c.CastRay origin direction length).2.GetObject = c.GetObject := by
  have hagain := c.CastRay_nonneg_again origin direction length hnd
  have hfirst := c.CastRay_of_nonneg origin direction length hnd
  have hkeep := c.CastRay_untouched origin direction length
  have hall : ∀ j : Nat,
      castRays c (List.replicate (j + 1) ⟨origin, direction, length⟩) =
        (c.CastRay origin direction length).2 := by
    intro j
    rw [List.replicate_succ, castRays_cons]
    exact castRays_replicate_fixed _ ⟨origin, direction, length⟩
      (congrArg Prod.snd hagain) j
  refine ⟨hall k, ?_, ?_, ?_, hkeep.2.2.2.1, hkeep.2.1, hkeep.2.2.1, hkeep.2.2.2.2⟩
  · cases k with
    | zero => rw [List.replicate_zero, castRays_nil, hfirst]
    | succ j => rw [hall j, hagain, hfirst]
  · rw [hfirst]
    rfl
  · rw [hfirst]
    rfl

/-- An instance of C6: the sample on the plane `z = 1` asked three times with
the diverging direction `(0,0,1)` from `(0,0,3)` and length `5`. -/
theorem CastRay_miss_idempotent_witness :
    0 ≤ btVector3.dot ⟨0, 0, 1⟩ ⟨0, 0, 1⟩ ∧
    castRays ⟨⟨0, 0, 1⟩, ⟨0, 0, 1⟩, 2, 7, none, some ⟨3⟩, none⟩
        (List.replicate (2 + 1) ⟨⟨0, 0, 3⟩, ⟨0, 0, 1⟩, 5⟩) =
      (COLLISION_CONTACT.CastRay ⟨⟨0, 0, 1⟩, ⟨0, 0, 1⟩, 2, 7, none, some ⟨3⟩, none⟩
        ⟨0, 0, 3⟩ ⟨0, 0, 1⟩ 5).2 :=
  ⟨by norm_num [btVector3.dot],
    (CastRay_miss_idempotent ⟨⟨0, 0, 1⟩, ⟨0, 0, 1⟩, 2, 7, none, some ⟨3⟩, none⟩
      ⟨0, 0, 3⟩ ⟨0, 0, 1⟩ 5 (by norm_num [btVector3.dot]) 2).1⟩

/-- C7: the assertion `s != NULL` of the parameterised constructor fails
exactly when the surface argument is null; with a non-null surface the
construction succeeds and yields the sample, whatever the other six arguments
are. -/
theorem ctor_assertion (p n : btVector3) (d : btScalar) (i : Int)
    (b : Option BEZIER) (s : Option TRACKSURFACE) (c : Option btCollisionObject) :
    (COLLISION_CONTACT.ctor p n d i b s c = none ↔ s = none) ∧
    COLLISION_CONTACT.ctor p n d i b none c = none ∧
    (∀ sv : TRACKSURFACE,
      COLLISION_CONTACT.ctor p n d i b (some sv) c =
        some ⟨p, n, d, i, b, some sv, c⟩) := by
  refine ⟨?_, by simp [COLLISION_CONTACT.ctor], fun sv => by simp [COLLISION_CONTACT.ctor]⟩
  cases s <;> simp [COLLISION_CONTACT.ctor]

/-- C8: a default-constructed sample is the "no contact" sample: `patchid` is
the sentinel `-1`, `patch` and `col` are null, the surface is
`TRACKSURFACE::None()` and the depth is `0`, whatever the uninitialised
`position` and `normal` hold. -/
theorem ctorDefault_no_contact (p0 n0 : btVector3) :
    (COLLISION_CONTACT.ctorDefault p0 n0).GetPatchId = -1 ∧
    (COLLISION_CONTACT.ctorDefault p0 n0).GetPatch = none ∧
    (COLLISION_CONTACT.ctorDefault p0 n0).GetObject = none ∧
    (COLLISION_CONTACT.ctorDefault p0 n0).GetSurface = TRACKSURFACE.None ∧
    (COLLISION_CONTACT.ctorDefault p0 n0).GetDepth = 0 :=
  ⟨rfl, rfl, rfl, rfl, rfl⟩

/-- C9: the contact sample is a value type.  For every `p`, `n`, `d`, `i`, `b`,
non-null `s` and `c` the parameterised constructor succeeds, and the accessors
of the sample it builds return exactly `p`, `n`, `d`, `i`, `b`, `*s` and `c`.
The accessors are `const` member functions: functions of the sample that yield
a value and no new sample. -/
theorem ctor_accessors (p n : btVector3) (d : btScalar) (i : Int)
    (b : Option BEZIER) (sv : TRACKSURFACE) (c : Option btCollisionObject) :
    ∃ smp, COLLISION_CONTACT.ctor p n d i b (some sv) c = some smp ∧
      smp.GetPosition = p ∧ smp.GetNormal = n ∧ smp.GetDepth = d ∧
      smp.GetPatchId = i ∧ smp.GetPatch = b ∧ smp.GetSurface = some sv ∧
      smp.GetObject = c :=
  ⟨⟨p, n, d, i, b, some sv, c⟩, by simp [COLLISION_CONTACT.ctor],
    rfl, rfl, rfl, rfl, rfl, rfl, rfl⟩

/-- Counterexample to C10 as stated: the parameterised constructor called with
the normal `(0,0,2)` and a non-null surface succeeds and stores that normal,
whose scalar square is `4`. -/
theorem normal_unit_counterexample :
    COLLISION_CONTACT.ctor ⟨0, 0, 0⟩ ⟨0, 0, 2⟩ 0 0 none (some ⟨3⟩) none =
      some ⟨⟨0, 0, 0⟩, ⟨0, 0, 2⟩, 0, 0, none, some ⟨3⟩, none⟩ ∧
    btVector3.dot
      (COLLISION_CONTACT.GetNormal ⟨⟨0, 0, 0⟩, ⟨0, 0, 2⟩, 0, 0, none, some ⟨3⟩, none⟩)
      (COLLISION_CONTACT.GetNormal ⟨⟨0, 0, 0⟩, ⟨0, 0, 2⟩, 0, 0, none, some ⟨3⟩, none⟩)
      = 4 ∧
    ¬ btVector3.dot
      (COLLISION_CONTACT.GetNormal ⟨⟨0, 0, 0⟩, ⟨0, 0, 2⟩, 0, 0, none, some ⟨3⟩, none⟩)
      (COLLISION_CONTACT.GetNormal ⟨⟨0, 0, 0⟩, ⟨0, 0, 2⟩, 0, 0, none, some ⟨3⟩, none⟩)
      = 1 := by
  refine ⟨by simp [COLLISION_CONTACT.ctor], ?_, ?_⟩ <;>
    norm_num [COLLISION_CONTACT.GetNormal, btVector3.dot]

/-- C10, amended: the constructors store the normal they are given without
checking or normalising it, and `CastRay` never changes it.  A sample built by
the parameterised constructor from a normal `n` with `n · n = 1` (and a
non-null surface) has normal `n`, hence `normal · normal = 1`, after any finite
sequence of `CastRay` calls. -/
theorem normal_unit_preserved (p n : btVector3) (d : btScalar) (i : Int)
    (b : Option BEZIER) (sv : TRACKSURFACE) (c : Option btCollisionObject)
    (calls : List RayArgs) (hunit : n.dot n = 1) :
    ∃ smp, COLLISION_CONTACT.ctor p n d i b (some sv) c = some smp ∧
      (castRays smp calls).GetNormal = n ∧
      (castRays smp calls).GetNormal.dot (castRays smp calls).GetNormal = 1 := by
  refine ⟨⟨p, n, d, i, b, some sv, c⟩, by simp [COLLISION_CONTACT.ctor], ?_⟩
  have h : (castRays ⟨p, n, d, i, b, some sv, c⟩ calls).GetNormal = n :=
    (castRays_untouched calls ⟨p, n, d, i, b, some sv, c⟩).1
  exact ⟨h, by rw [h]; exact hunit⟩

/-- An instance of amended C10: the unit normal `(0,0,1)` survives a hit
followed by a miss. -/
theorem normal_unit_preserved_witness :
    btVector3.dot ⟨0, 0, 1⟩ ⟨0, 0, 1⟩ = 1 ∧
    ∃ smp, COLLISION_CONTACT.ctor ⟨0, 0, 1⟩ ⟨0, 0, 1⟩ 2 7 none (some ⟨3⟩) none = some smp ∧
      (castRays smp [⟨⟨0, 0, 3⟩, ⟨0, 0, -1⟩, 5⟩, ⟨⟨0, 0, 3⟩, ⟨0, 0, 1⟩, 5⟩]).GetNormal =
        ⟨0, 0, 1⟩ ∧
      (castRays smp [⟨⟨0, 0, 3⟩, ⟨0, 0, -1⟩, 5⟩, ⟨⟨0, 0, 3⟩, ⟨0, 0, 1⟩, 5⟩]).GetNormal.dot
        (castRays smp [⟨⟨0, 0, 3⟩, ⟨0, 0, -1⟩, 5⟩, ⟨⟨0, 0, 3⟩, ⟨0, 0, 1⟩, 5⟩]).GetNormal
        = 1 :=
  ⟨by norm_num [btVector3.dot],
    normal_unit_preserved ⟨0, 0, 1⟩ ⟨0, 0, 1⟩ 2 7 none ⟨3⟩ none
      [⟨⟨0, 0, 3⟩, ⟨0, 0, -1⟩, 5⟩, ⟨⟨0, 0, 3⟩, ⟨0, 0, 1⟩, 5⟩]
      (by norm_num [btVector3.dot])⟩

/-- C11: forced reacquisition.  For every cap and every tracker, after exactly
`cap` consecutive ticks on which the `Update` extrapolated (the tracker was
`Tracking`, no refresh was forced and `CastRay` returned true), the next
`Update` issues a full query whatever its ray, hence whatever `CastRay` would
return on that tick, and when that query hits the run-length is reset to zero
and the tracker is `Tracking` again. -/
theorem forced_reacquisition_after_cap (cap : Nat) (t : ContactTracker)
    (ticks : List TickInput) (next : TickInput)
    (hlen : ticks.length = cap)
    (hrun : (runUpdates cap t ticks).2 = List.replicate cap TickAction.extrapolated) :
    (ContactTracker.Update cap (runUpdates cap t ticks).1 next).2 = TickAction.fullQuery ∧
    (∀ hit : QueryHit, next.query = some hit →
      (ContactTracker.Update cap (runUpdates cap t ticks).1 next).1.runLength = 0 ∧
      (ContactTracker.Update cap (runUpdates cap t ticks).1 next).1.state =
        TrackerState.Tracking) := by
  have hcount := runUpdates_runLength_of_extrapolated cap ticks t (by rw [hlen]; exact hrun)
  have hcap : cap ≤ (runUpdates cap t ticks).1.runLength := by
    rw [hcount, hlen]
    exact Nat.le_add_left cap t.runLength
  rw [ContactTracker.Update_of_cap_le cap _ next hcap]
  exact ⟨rfl, fun hit hq => ContactTracker.Reacquire_of_hit _ next hit hq⟩

/-- An instance of C11 with cap `2`: two extrapolated ticks on the plane
`z = 1`, then a tick whose ray would again satisfy `CastRay` and on which the
full query hits. -/
theorem forced_reacquisition_after_cap_witness :
    [tickDown, tickDown].length = 2 ∧
    (runUpdates 2 trackerOnPlane [tickDown, tickDown]).2 =
      List.replicate 2 TickAction.extrapolated ∧
    (ContactTracker.Update 2 (runUpdates 2 trackerOnPlane [tickDown, tickDown]).1
      tickDownHit).2 = TickAction.fullQuery ∧
    (∀ hit : QueryHit, tickDownHit.query = some hit →
      (ContactTracker.Update 2 (runUpdates 2 trackerOnPlane [tickDown, tickDown]).1
        tickDownHit).1.runLength = 0 ∧
      (ContactTracker.Update 2 (runUpdates 2 trackerOnPlane [tickDown, tickDown]).1
        tickDownHit).1.state = TrackerState.Tracking) := by
  have hrun : (runUpdates 2 trackerOnPlane [tickDown, tickDown]).2 =
      List.replicate 2 TickAction.extrapolated := by
    simp [runUpdates, ContactTracker.Update, trackerOnPlane, tickDown,
      COLLISION_CONTACT.CastRay, btVector3.dot, btVector3.add_eq, btVector3.sub_eq,
      btVector3.scale_eq]
  exact ⟨rfl, hrun,
    forced_reacquisition_after_cap 2 trackerOnPlane [tickDown, tickDown] tickDownHit rfl hrun⟩

/-- C12: `TEXTURE::Load` rejects invalid requests without touching the texture.
If the texture is already loaded (`id ≠ 0`), or the path is empty and no
in-memory pixel data is supplied, `Load` returns false, appends its error
message to the `error` stream, and leaves every field of the texture and the
state of the libraries unchanged, whatever the loaders behind the guards would
do: no texture name is generated and no file is read. -/
theorem Load_rejects_without_side_effects {World : Type}
    (LoadCube loadSurface :
      String → TEXTUREINFO → LoadState World → Bool × LoadState World)
    (path : String) (info : TEXTUREINFO) (st : LoadState World)
    (hbad : st.texture.id ≠ 0 ∨ (path = "" ∧ info.data = none)) :
    (TEXTURE.Load LoadCube loadSurface path info st).1 = false ∧
    (TEXTURE.Load LoadCube loadSurface path info st).2.texture = st.texture ∧
    (TEXTURE.Load LoadCube loadSurface path info st).2.world = st.world ∧
    (TEXTURE.Load LoadCube loadSurface path info st).2.error =
      st.error ++
        (if st.texture.id ≠ 0 then "Tried to double load texture " ++ path ++ "\n"
         else "Tried to load a texture with an empty name" ++ "\n") := by
  unfold TEXTURE.Load
  by_cases hid : st.texture.id ≠ 0
  · rw [if_pos hid, if_pos hid]
    exact ⟨rfl, rfl, rfl, by simp [String.append_assoc]⟩
  · rw [if_neg hid, if_neg hid, if_pos (hbad.resolve_left hid)]
    exact ⟨rfl, rfl, rfl, by simp [String.append_assoc]⟩

/-- An instance of C12: loading `grass.png` into a texture that already holds
the GL name `5` returns false and changes neither the texture nor the library
state, although the loader behind the guards would have done both. -/
theorem Load_rejects_without_side_effects_witness :
    (loadedTexture.texture.id ≠ 0 ∨ ("grass.png" = "" ∧ plainInfo.data = none)) ∧
    (TEXTURE.Load recordingLoader recordingLoader "grass.png" plainInfo loadedTexture).1 =
      false ∧
    (TEXTURE.Load recordingLoader recordingLoader "grass.png" plainInfo
      loadedTexture).2.texture = loadedTexture.texture ∧
    (TEXTURE.Load recordingLoader recordingLoader "grass.png" plainInfo
      loadedTexture).2.world = loadedTexture.world ∧
    (TEXTURE.Load recordingLoader recordingLoader "grass.png" plainInfo
      loadedTexture).2.error =
      loadedTexture.error ++
        (if loadedTexture.texture.id ≠ 0 then
          "Tried to double load texture " ++ "grass.png" ++ "\n"
         else "Tried to load a texture with an empty name" ++ "\n") :=
  ⟨Or.inl (by decide),
    Load_rejects_without_side_effects recordingLoader recordingLoader "grass.png" plainInfo
      loadedTexture (Or.inl (by decide))⟩

/-- C13: if the value is not found, the first value is set.  For a `GUIOPTION`
whose type is not `"float"`, whose value list is non-empty with first entry
`first`, and a name that equals no entry's stored value, `SetCurrentValue`
makes the first entry current and valid, emits exactly `signal_val` with the
first stored string and then `signal_str` with the first display string, and
afterwards `GetCurrentStorageValue` and `GetCurrentDisplayValue` return the
first pair's stored and display strings. -/
theorem SetCurrentValue_not_found_sets_first (sameFloat : String → String → Bool)
    (g : GUIOPTION) (name : String) (first : String × String)
    (rest : List (String × String))
    (hvalues : g.values = first :: rest) (htype : g.type ≠ "float")
    (hmiss : ∀ entry ∈ g.values, entry.1 ≠ name) :
    ∃ g', g.SetCurrentValue sameFloat name =
        some (g', [GUISIGNAL.signal_val first.1, GUISIGNAL.signal_str first.2]) ∧
      g'.current_value = some 0 ∧ g'.current_valid = true ∧ g'.values = g.values ∧
      g'.GetCurrentStorageValue = some first.1 ∧
      g'.GetCurrentDisplayValue = some first.2 := by
  have hne : g.values.isEmpty = false := by rw [hvalues]; rfl
  have hnone : GUIOPTION.findFirst (fun entry => decide (entry.1 = name)) g.values = none :=
    GUIOPTION.findFirst_none _ _ (fun entry he => by simpa using hmiss entry he)
  have hderef : GUIOPTION.deref
      ({ g with current_valid := true, current_value := some 0 } : GUIOPTION).values
      ({ g with current_valid := true, current_value := some 0 } : GUIOPTION).current_value
      = some first := by
    simp [GUIOPTION.deref, hvalues]
  have hset : g.SetCurrentValue sameFloat name =
      GUIOPTION.SignalValue { g with current_valid := true, current_value := some 0 } := by
    simp [GUIOPTION.SetCurrentValue, hne, htype, hnone, GUIOPTION.valuesBegin]
  refine ⟨{ g with current_valid := true, current_value := some 0 }, ?_, rfl, rfl, rfl,
    GUIOPTION.GetCurrentStorageValue_of_entry _ first rfl hderef,
    GUIOPTION.GetCurrentDisplayValue_of_entry _ first rfl hderef⟩
  rw [hset, GUIOPTION.SignalValue_of_entry _ first hderef]

/-- An instance of C13: `ultra` is not among `low`, `medium`, `high`, so `low`
becomes current and is the pair that is signalled. -/
theorem SetCurrentValue_not_found_sets_first_witness :
    qualityOption.values = ("low", "Low") :: [("medium", "Medium"), ("high", "High")] ∧
    qualityOption.type ≠ "float" ∧
    (∀ entry ∈ qualityOption.values, entry.1 ≠ "ultra") ∧
    ∃ g', qualityOption.SetCurrentValue (fun _ _ => false) "ultra" =
        some (g', [GUISIGNAL.signal_val "low", GUISIGNAL.signal_str "Low"]) ∧
      g'.current_value = some 0 ∧ g'.current_valid = true ∧
      g'.values = qualityOption.values ∧
      g'.GetCurrentStorageValue = some "low" ∧
      g'.GetCurrentDisplayValue = some "Low" :=
  ⟨rfl, by decide, by decide,
    SetCurrentValue_not_found_sets_first (fun _ _ => false) qualityOption "ultra"
      ("low", "Low") [("medium", "Medium"), ("high", "High")] rfl (by decide) (by decide)⟩

/-- C14: after a successful `CastRay` (`nd = normal · direction < 0`) the new
contact position lies on the stored contact plane:
`normal · (position_new − position_old) = 0` in exact arithmetic, for every
origin, direction and length and every stored position and normal. -/
theorem CastRay_position_on_plane (c : COLLISION_CONTACT)
    (origin direction : btVector3) (length : btScalar)
    (hnd : c.normal.dot direction < 0) :
    c.normal.dot ((c.CastRay origin direction length).2.position - c.position) = 0 := by
  rw [c.CastRay_of_neg origin direction length hnd]
  show c.normal.dot
    ((origin + direction * (c.normal.dot (c.position - origin) / c.normal.dot direction))
      - c.position) = 0
  rw [btVector3.dot_ray_sub_point, mul_div_cancel₀ _ (ne_of_lt hnd), sub_self]

/-- An instance of C14: a slanted ray from `(1,2,3)` onto the plane `z = 1`
lands at height `1`. -/
theorem CastRay_position_on_plane_witness :
    btVector3.dot ⟨0, 0, 1⟩ ⟨1, 0, -2⟩ < 0 ∧
    btVector3.dot ⟨0, 0, 1⟩
      ((COLLISION_CONTACT.CastRay ⟨⟨0, 0, 1⟩, ⟨0, 0, 1⟩, 2, 7, none, some ⟨3⟩, none⟩
        ⟨1, 2, 3⟩ ⟨1, 0, -2⟩ 5).2.position - ⟨0, 0, 1⟩) = 0 :=
  ⟨by norm_num [btVector3.dot],
    CastRay_position_on_plane ⟨⟨0, 0, 1⟩, ⟨0, 0, 1⟩, 2, 7, none, some ⟨3⟩, none⟩
      ⟨1, 2, 3⟩ ⟨1, 0, -2⟩ 5 (by norm_num [btVector3.dot])⟩

/-- C15: successful extrapolation is a fixed point.  When
`normal · direction < 0`, calling `CastRay` a second time with the same origin,
direction and length returns true again and leaves the sample, position, depth
and all other fields, exactly as the first call left it. -/
theorem CastRay_hit_fixed_point (c : COLLISION_CONTACT)
    (origin direction : btVector3) (length : btScalar)
    (hnd : c.normal.dot direction < 0) :
    (c.CastRay origin direction length).1 = true ∧
    (c.CastRay origin direction length).2.CastRay origin direction length =
      (true, (c.CastRay origin direction length).2) := by
  have hnd2 : (c.CastRay origin direction length).2.normal.dot direction < 0 := by
    rw [(c.CastRay_untouched origin direction length).1]
    exact hnd
  rw [COLLISION_CONTACT.CastRay_of_neg _ origin direction length hnd2,
    c.CastRay_of_neg origin direction length hnd]
  refine ⟨rfl, ?_⟩
  show (true, ({ c with
      depth := c.normal.dot ((origin + direction *
        (c.normal.dot (c.position - origin) / c.normal.dot direction)) - origin) /
          c.normal.dot direction
      position := origin + direction *
        (c.normal.dot ((origin + direction *
          (c.normal.dot (c.position - origin) / c.normal.dot direction)) - origin) /
            c.normal.dot direction) } : COLLISION_CONTACT)) = _
  rw [btVector3.dot_ray_sub_origin, mul_div_cancel_left₀ _ (ne_of_lt hnd)]

/-- An instance of C15: the slanted ray of the previous example, cast twice. -/
theorem CastRay_hit_fixed_point_witness :
    btVector3.dot ⟨0, 0, 1⟩ ⟨1, 0, -2⟩ < 0 ∧
    (COLLISION_CONTACT.CastRay ⟨⟨0, 0, 1⟩, ⟨0, 0, 1⟩, 2, 7, none, some ⟨3⟩, none⟩
      ⟨1, 2, 3⟩ ⟨1, 0, -2⟩ 5).1 = true ∧
    (COLLISION_CONTACT.CastRay ⟨⟨0, 0, 1⟩, ⟨0, 0, 1⟩, 2, 7, none, some ⟨3⟩, none⟩
      ⟨1, 2, 3⟩ ⟨1, 0, -2⟩ 5).2.CastRay ⟨1, 2, 3⟩ ⟨1, 0, -2⟩ 5 =
      (true, (COLLISION_CONTACT.CastRay ⟨⟨0, 0, 1⟩, ⟨0, 0, 1⟩, 2, 7, none, some ⟨3⟩, none⟩
        ⟨1, 2, 3⟩ ⟨1, 0, -2⟩ 5).2) :=
  ⟨by norm_num [btVector3.dot],
    CastRay_hit_fixed_point ⟨⟨0, 0, 1⟩, ⟨0, 0, 1⟩, 2, 7, none, some ⟨3⟩, none⟩
      ⟨1, 2, 3⟩ ⟨1, 0, -2⟩ 5 (by norm_num [btVector3.dot])⟩

/-- C16: `SetCurrentValue` followed by `GetCurrentStorageValue` is a round
trip.  For a `GUIOPTION` whose type is not `"float"` and a string `v`, if the
value list is empty or `v` is the stored value of some entry, then
`SetCurrentValue(v)` completes and `GetCurrentStorageValue()` afterwards
returns `v`; with a non-empty list the entry selected is the first one whose
stored value is `v`. -/
theorem SetCurrentValue_GetCurrentStorageValue_roundtrip
    (sameFloat : String → String → Bool) (g : GUIOPTION) (v : String)
    (htype : g.type ≠ "float")
    (hv : g.values = [] ∨ ∃ entry ∈ g.values, entry.1 = v) :
    ∃ g' signals, g.SetCurrentValue sameFloat v = some (g', signals) ∧
      g'.GetCurrentStorageValue = some v ∧
      (g.values ≠ [] →
        ∃ i entry, g'.current_value = some i ∧ g.values.get? i = some entry ∧
          entry.1 = v ∧ ∀ j, j < i → ∀ e, g.values.get? j = some e → e.1 ≠ v) := by
  rcases hv with hempty | hfound
  · refine ⟨{ g with non_value_data := v, current_valid := false },
      [GUISIGNAL.signal_val v, GUISIGNAL.signal_str v], ?_, ?_, fun hne => absurd hempty hne⟩
    · simp [GUIOPTION.SetCurrentValue, hempty]
    · simp [GUIOPTION.GetCurrentStorageValue, hempty]
  · have hne : g.values.isEmpty = false := by
      obtain ⟨entry, hmem, _⟩ := hfound
      cases hvals : g.values with
      | nil => rw [hvals] at hmem; cases hmem
      | cons a l => rfl
    obtain ⟨i, entry, hfind, hget, htest, hbefore⟩ :=
      GUIOPTION.findFirst_some (fun entry => decide (entry.1 = v)) g.values
        (by
          obtain ⟨entry, hmem, heq⟩ := hfound
          exact ⟨entry, hmem, by simpa using heq⟩)
    have hentry : entry.1 = v := by simpa using htest
    have hderef : GUIOPTION.deref
        ({ g with current_valid := true, current_value := some i } : GUIOPTION).values
        ({ g with current_valid := true, current_value := some i } : GUIOPTION).current_value
        = some entry := by
      simpa [GUIOPTION.deref] using hget
    have hset : g.SetCurrentValue sameFloat v =
        GUIOPTION.SignalValue { g with current_valid := true, current_value := some i } := by
      simp [GUIOPTION.SetCurrentValue, hne, htype, hfind]
    refine ⟨{ g with current_valid := true, current_value := some i },
      [GUISIGNAL.signal_val entry.1, GUISIGNAL.signal_str entry.2], ?_, ?_, ?_⟩
    · rw [hset, GUIOPTION.SignalValue_of_entry _ entry hderef]
    · rw [GUIOPTION.GetCurrentStorageValue_of_entry _ entry rfl hderef, hentry]
    · intro _
      refine ⟨i, entry, rfl, hget, hentry, ?_⟩
      intro j hj e he
      simpa using hbefore j hj e he

/-- An instance of C16: a list in which `medium` is stored twice; setting
`medium` selects the first of the two entries and reads back `medium`. -/
theorem SetCurrentValue_GetCurrentStorageValue_roundtrip_witness :
    duplicateOption.type ≠ "float" ∧
    (duplicateOption.values = [] ∨ ∃ entry ∈ duplicateOption.values, entry.1 = "medium") ∧
    ∃ g' signals,
      duplicateOption.SetCurrentValue (fun _ _ => false) "medium" = some (g', signals) ∧
      g'.GetCurrentStorageValue = some "medium" ∧
      (duplicateOption.values ≠ [] →
        ∃ i entry, g'.current_value = some i ∧
          duplicateOption.values.get? i = some entry ∧ entry.1 = "medium" ∧
          ∀ j, j < i → ∀ e, duplicateOption.values.get? j = some e → e.1 ≠ "medium") :=
  ⟨by decide, Or.inr ⟨("medium", "Medium"), by decide, rfl⟩,
    SetCurrentValue_GetCurrentStorageValue_roundtrip (fun _ _ => false) duplicateOption
      "medium" (by decide) (Or.inr ⟨("medium", "Medium"), by decide, rfl⟩)⟩

/-- C17: `Increment` and `Decrement` are mutually inverse cyclic steps.  For a
`GUIOPTION` whose current position is the entry `i` of its (hence non-empty)
value list, `Increment` moves to entry `i + 1`, or from the last entry to the
first, `Decrement` moves to entry `i − 1`, or from the first entry to the
last, and either one followed by the other completes and leaves the current
position on entry `i`, whose stored value `GetCurrentStorageValue` then
returns. -/
theorem Increment_Decrement_inverse (g : GUIOPTION) (i : Nat)
    (hcur : g.current_value = some i) (hi : i < g.values.length) :
    (∃ g1 s1 g2 s2 entry,
      g.Increment = some (g1, s1) ∧ g1.Decrement = some (g2, s2) ∧
      g1.current_value = some (if i + 1 = g.values.length then 0 else i + 1) ∧
      g2.current_value = some i ∧ g2.values = g.values ∧
      g.values.get? i = some entry ∧ g2.GetCurrentStorageValue = some entry.1) ∧
    (∃ g1 s1 g2 s2 entry,
      g.Decrement = some (g1, s1) ∧ g1.Increment = some (g2, s2) ∧
      g1.current_value = some (if i = 0 then g.values.length - 1 else i - 1) ∧
      g2.current_value = some i ∧ g2.values = g.values ∧
      g.values.get? i = some entry ∧ g2.GetCurrentStorageValue = some entry.1) := by
  constructor
  · obtain ⟨e1, _, hinc⟩ := GUIOPTION.Increment_at g i hcur hi
    have hk : (if i + 1 = g.values.length then 0 else i + 1) < g.values.length := by
      split <;> omega
    obtain ⟨e2, hget2, hdec⟩ := GUIOPTION.Decrement_at
      { g with
        current_value := some (if i + 1 = g.values.length then 0 else i + 1)
        current_valid := true }
      (if i + 1 = g.values.length then 0 else i + 1) rfl hk
    have hback : (if (if i + 1 = g.values.length then 0 else i + 1) = 0
        then g.values.length - 1
        else (if i + 1 = g.values.length then 0 else i + 1) - 1) = i := by
      by_cases hlast : i + 1 = g.values.length
      · simp [hlast.symm]
      · simp [hlast]
    simp only [hback] at hget2 hdec
    refine ⟨_, _, _, _, e2, hinc, hdec, rfl, rfl, rfl, hget2, ?_⟩
    exact GUIOPTION.GetCurrentStorageValue_of_entry _ e2 rfl
      (by simpa [GUIOPTION.deref] using hget2)
  · obtain ⟨e1, _, hdec⟩ := GUIOPTION.Decrement_at g i hcur hi
    have hk : (if i = 0 then g.values.length - 1 else i - 1) < g.values.length := by
      split <;> omega
    obtain ⟨e2, hget2, hinc⟩ := GUIOPTION.Increment_at
      { g with
        current_value := some (if i = 0 then g.values.length - 1 else i - 1)
        current_valid := true }
      (if i = 0 then g.values.length - 1 else i - 1) rfl hk
    have hback : (if (if i = 0 then g.values.length - 1 else i - 1) + 1 = g.values.length
        then 0
        else (if i = 0 then g.values.length - 1 else i - 1) + 1) = i := by
      by_cases hfirst : i = 0
      · have hpos : g.values.length - 1 + 1 = g.values.length := by omega
        rw [if_pos hfirst, if_pos hpos]
        exact hfirst.symm
      · have hne : i - 1 + 1 ≠ g.values.length := by omega
        have hstep : i - 1 + 1 = i := by omega
        rw [if_neg hfirst, if_neg hne, hstep]
    simp only [hback] at hget2 hinc
    refine ⟨_, _, _, _, e2, hdec, hinc, rfl, rfl, rfl, hget2, ?_⟩
    exact GUIOPTION.GetCurrentStorageValue_of_entry _ e2 rfl
      (by simpa [GUIOPTION.deref] using hget2)

/-- An instance of C17 at the last of the three entries, where `Increment`
wraps to the first entry and `Decrement` comes back. -/
theorem Increment_Decrement_inverse_witness :
    ({ qualityOption with current_value := some 2 } : GUIOPTION).current_value = some 2 ∧
    2 < ({ qualityOption with current_value := some 2 } : GUIOPTION).values.length ∧
    (∃ g1 s1 g2 s2 entry,
      ({ qualityOption with current_value := some 2 } : GUIOPTION).Increment =
        some (g1, s1) ∧
      g1.Decrement = some (g2, s2) ∧
      g1.current_value = some 0 ∧ g2.current_value = some 2 ∧
      qualityOption.values.get? 2 = some entry ∧
      g2.GetCurrentStorageValue = some entry.1) := by
  obtain ⟨⟨g1, s1, g2, s2, entry, h1, h2, h3, h4, _, h6, h7⟩, _⟩ :=
    Increment_Decrement_inverse { qualityOption with current_value := some 2 } 2 rfl
      (by decide)
  exact ⟨rfl, by decide, g1, s1, g2, s2, entry, h1, h2, h3, h4, h6, h7⟩
